import Mathlib

/-!
Verification development for the scheduling widget in src/public/app.js.

The widget keeps a small amount of mutable state (a random-delay window,
a running flag, one armed schedule, a generation counter, a last-played
timestamp) and mutates it through the operations start, stop, toggle,
playNow, expandWindow and shrinkWindow, plus the deferred timeout
callback armed by scheduleNext.  We embed that state as a structure and
each operation as a pure function on it.  Environment inputs that the
browser supplies at run time are passed as explicit arguments: the
current time (Date.now) as an integer number of milliseconds, the
random draw (Math.random) as a rational u with 0 <= u < 1, and the
outcome of the audio play promise as a boolean.  The deferred timeout
callback is modelled by timeoutFire, which may be invoked with any
captured generation value, so that ghost callbacks surviving a native
cancel are covered as well.
-/

namespace App

/-- JS clamp from app.js line 7: Math.max(a, Math.min(b, n)), on integers. -/
def clamp (n a b : ℤ) : ℤ := max a (min b n)

/-- JS clamp on rationals, used for the progress percentage in setProgress. -/
def clampQ (n a b : ℚ) : ℚ := max a (min b n)

/-- randInt from app.js line 8: Math.floor(Math.random() * (max - min + 1)) + min,
with the random draw u passed explicitly. -/
def randInt (mn mx : ℤ) (u : ℚ) : ℤ := ⌊u * ((mx - mn + 1 : ℤ) : ℚ)⌋ + mn

/-- Math.round as used by fmtWindow: round half toward positive infinity. -/
def jsRound (q : ℚ) : ℤ := ⌊q + 1 / 2⌋

/-- fmtWindow from app.js line 10. -/
def fmtWindow (minS maxS : ℤ) : String :=
  toString (jsRound ((minS : ℚ) / 60)) ++ "–" ++ toString (jsRound ((maxS : ℚ) / 60)) ++ " min"

/-- fmtCountdown from app.js lines 12-18: none models a null msLeft; the
seconds count is Math.max(0, Math.ceil(msLeft / 1000)). -/
def fmtCountdown (msLeft : Option ℤ) : String :=
  match msLeft with
  | none => "—"
  | some ms =>
    let s := max 0 ⌈(ms : ℚ) / 1000⌉
    let m := s / 60
    let r := s % 60
    if 0 < m then toString m ++ "m " ++ toString r ++ "s" else toString r ++ "s"

/-- fmtAgo from app.js lines 20-27. -/
def fmtAgo (msAgo : Option ℤ) : String :=
  match msAgo with
  | none => "—"
  | some ms =>
    let s := ⌊(ms : ℚ) / 1000⌋
    if s < 60 then toString s ++ "s ago"
    else toString (s / 60) ++ "m " ++ toString (s % 60) ++ "s ago"

/-- State of the shared HTMLAudioElement, as far as app.js mutates it. -/
structure AudioState where
  paused : Bool
  currentTime : ℤ
  srcIsSet : Bool
  loop : Bool
deriving Repr, DecidableEq

/-- An armed setTimeout: the generation captured at arming time (myGen at
app.js line 134) and the delay in milliseconds. -/
structure Pending where
  myGen : ℕ
  delayMs : ℤ
deriving Repr, DecidableEq

/-- The per-widget mutable state declared at app.js lines 49-67.  timeoutId
is modelled as the Option-valued pending schedule and uiIntervalId as the
boolean uiLoop. -/
structure WidgetState where
  minSec : ℤ
  maxSec : ℤ
  running : Bool
  scheduledAt : ℤ
  fireAt : ℤ
  pending : Option Pending
  uiLoop : Bool
  lastRandomAt : Option ℤ
  gen : ℕ
  audio : AudioState
deriving Repr, DecidableEq

/-- Fresh audio element (nothing played yet, src not assigned). -/
def initAudio : AudioState :=
  { paused := true, currentTime := 0, srcIsSet := false, loop := false }

/-- Initial widget state from app.js lines 49-67: window [60, 300], not
running, no schedule, generation 0. -/
def initState : WidgetState :=
  { minSec := 60, maxSec := 300, running := false,
    scheduledAt := 0, fireAt := 0, pending := none,
    uiLoop := false, lastRandomAt := none, gen := 0, audio := initAudio }

/-- Generation captured by the currently armed timeout, if any. -/
def pendingGen (s : WidgetState) : Option ℕ := s.pending.map Pending.myGen

/-- Display outputs produced by one updateUI call. -/
structure Display where
  windowText : String
  lastText : String
  nextText : String
  progressPct : ℚ
deriving Repr, DecidableEq

/-- setProgress from app.js lines 76-79: the rendered width is the
percentage clamped to [0, 100]. -/
def setProgressPct (pct : ℚ) : ℚ := clampQ pct 0 100

/-- Progress computation from app.js lines 96-98: total is
Math.max(1, fireAt - scheduledAt), elapsed is clamp(now - scheduledAt, 0, total),
and the percentage is (elapsed / total) * 100. -/
def progressOf (scheduledAt fireAt now : ℤ) : ℚ :=
  let total := max 1 (fireAt - scheduledAt)
  let elapsed := clamp (now - scheduledAt) 0 total
  ((elapsed : ℚ) / (total : ℚ)) * 100

/-- The last-played line of updateUI (app.js line 84), with JS truthiness:
a zero timestamp also renders the placeholder. -/
def lastTextOf (last : Option ℤ) (now : ℤ) : String :=
  match last with
  | none => "—"
  | some t => if t = 0 then "—" else fmtAgo (some (now - t))

/-- updateUI from app.js lines 81-99.  The early return at line 86 fires
when not running or either timestamp is zero (JS truthiness of fireAt and
scheduledAt). -/
def updateUI (s : WidgetState) (now : ℤ) : Display :=
  let wText := fmtWindow s.minSec s.maxSec
  let lText := lastTextOf s.lastRandomAt now
  if s.running = true ∧ s.fireAt ≠ 0 ∧ s.scheduledAt ≠ 0 then
    { windowText := wText, lastText := lText,
      nextText := fmtCountdown (some (s.fireAt - now)),
      progressPct := setProgressPct (progressOf s.scheduledAt s.fireAt now) }
  else
    { windowText := wText, lastText := lText,
      nextText := "—", progressPct := setProgressPct 0 }

/-- clearSchedule from app.js lines 112-120: bump the generation, cancel the
native timeout, zero both timestamps. -/
def clearSchedule (s : WidgetState) : WidgetState :=
  { s with gen := s.gen + 1, pending := none, scheduledAt := 0, fireAt := 0 }

/-- scheduleNext from app.js lines 122-152: a no-op unless running;
otherwise clear the previous schedule first, draw a fresh delay, record
scheduledAt and fireAt, and arm a timeout capturing the current generation.
The resetTimer argument is accepted and ignored, as in the source. -/
def scheduleNext (resetTimer : Bool) (s : WidgetState) (now : ℤ) (u : ℚ) : WidgetState :=
  if s.running = false then s
  else
    let s1 := clearSchedule s
    let delaySec := randInt s1.minSec s1.maxSec u
    { s1 with scheduledAt := now, fireAt := now + delaySec * 1000,
              pending := some { myGen := s1.gen, delayMs := delaySec * 1000 } }

/-- The pause / reset-position / ensure-src / loop-off sequence shared by
both play paths (app.js lines 158-167 and 183-190). -/
def playAudioReset (a : AudioState) : AudioState :=
  let a1 := { a with paused := true, currentTime := 0 }
  let a2 := if a1.srcIsSet = false then { a1 with srcIsSet := true } else a1
  { a2 with loop := false }

/-- playScheduledOnce from app.js lines 154-178: reset the audio element and
play; on success record lastRandomAt, on rejection the catch swallows the
error and the state is left as the failed attempt left it. -/
def playScheduledOnce (s : WidgetState) (now : ℤ) (playOk : Bool) : WidgetState :=
  let a := playAudioReset s.audio
  if playOk = true then
    { s with audio := { a with paused := false }, lastRandomAt := some now }
  else
    { s with audio := a }

/-- playNowOnly from app.js lines 180-196: same audio sequence, but no
schedule change and no lastRandomAt update, on success or failure. -/
def playNowOnly (s : WidgetState) (playOk : Bool) : WidgetState :=
  let a := playAudioReset s.audio
  if playOk = true then
    { s with audio := { a with paused := false } }
  else
    { s with audio := a }

/-- The timeout callback armed at app.js lines 136-147, fired with the
captured generation myGen.  The play happens at time now with outcome
playOk; the re-arm, if reached, happens at time now2 with random draw u.
The boolean result records whether a play attempt was made. -/
def timeoutFire (s : WidgetState) (myGen : ℕ) (now now2 : ℤ) (playOk : Bool) (u : ℚ) :
    WidgetState × Bool :=
  if s.running = false ∨ myGen ≠ s.gen then (s, false)
  else
    let s1 := playScheduledOnce s now playOk
    if s1.running = true ∧ myGen = s1.gen then (scheduleNext false s1 now2 u, true)
    else (s1, true)

/-- start from app.js lines 199-205: set running, start the UI loop, arm a
fresh schedule. -/
def start (s : WidgetState) (now : ℤ) (u : ℚ) : WidgetState :=
  scheduleNext true { s with running := true, uiLoop := true } now u

/-- stop from app.js lines 207-213: clear running, clear the schedule, stop
the UI loop. -/
def stop (s : WidgetState) : WidgetState :=
  let s1 := clearSchedule { s with running := false }
  { s1 with uiLoop := false }

/-- toggle from app.js lines 215-218. -/
def toggle (s : WidgetState) (now : ℤ) (u : ℚ) : WidgetState :=
  if s.running = true then stop s else start s now u

/-- expandWindow from app.js lines 220-225. -/
def expandWindow (s : WidgetState) (now : ℤ) (u : ℚ) : WidgetState :=
  let mn := clamp (s.minSec + 60) 30 (60 * 60)
  let mx := clamp (s.maxSec + 60) (mn + 30) (60 * 60 * 2)
  let s1 := { s with minSec := mn, maxSec := mx }
  if s1.running = true then scheduleNext true s1 now u else s1

/-- shrinkWindow from app.js lines 227-232. -/
def shrinkWindow (s : WidgetState) (now : ℤ) (u : ℚ) : WidgetState :=
  let mn := clamp (s.minSec - 60) 30 (60 * 60)
  let mx := clamp (s.maxSec - 60) (mn + 30) (60 * 60 * 2)
  let s1 := { s with minSec := mn, maxSec := mx }
  if s1.running = true then scheduleNext true s1 now u else s1

/-- One expand or shrink user action. -/
inductive WinOp where
  | expand : WinOp
  | shrink : WinOp
deriving Repr, DecidableEq

/-- Apply one window action together with its environment inputs. -/
def applyWinOp (s : WidgetState) : WinOp × ℤ × ℚ → WidgetState
  | (WinOp.expand, now, u) => expandWindow s now u
  | (WinOp.shrink, now, u) => shrinkWindow s now u

/-- Apply a whole sequence of expand/shrink actions. -/
def runWinOps (s : WidgetState) (ops : List (WinOp × ℤ × ℚ)) : WidgetState :=
  ops.foldl applyWinOp s

/-- The window invariant from the specification, section 8. -/
def windowInv (s : WidgetState) : Prop :=
  30 ≤ s.minSec ∧ s.minSec + 30 ≤ s.maxSec ∧ s.maxSec ≤ 7200

/-- Modelled from the spec: the countdown text as section 4.1 words it,
with the remaining milliseconds FLOORED to whole seconds (the source uses
Math.ceil instead; this definition exists to compare the two). -/
def specFlooredCountdown (msLeft : ℤ) : String :=
  let s := max 0 ⌊(msLeft : ℚ) / 1000⌋
  let m := s / 60
  let r := s % 60
  if 0 < m then toString m ++ "m " ++ toString r ++ "s" else toString r ++ "s"

/-- A widget state with the maximal window, for the clamped expand scenario. -/
def maxedWindowState : WidgetState :=
  { initState with minSec := 3600, maxSec := 7200 }

/-- A representative armed running state: scheduled at 1000 ms, firing at
2500 ms. -/
def armedState : WidgetState :=
  { initState with running := true, scheduledAt := 1000, fireAt := 2500 }

/-- A second armed running state: scheduled at 1000 ms, firing at 2000 ms. -/
def armedState2 : WidgetState :=
  { initState with running := true, scheduledAt := 1000, fireAt := 2000 }

/-! ### Helper lemmas -/

lemma scheduleNext_minSec (b : Bool) (s : WidgetState) (now : ℤ) (u : ℚ) :
    (scheduleNext b s now u).minSec = s.minSec := by
  unfold scheduleNext clearSchedule
  split <;> rfl

lemma scheduleNext_maxSec (b : Bool) (s : WidgetState) (now : ℤ) (u : ℚ) :
    (scheduleNext b s now u).maxSec = s.maxSec := by
  unfold scheduleNext clearSchedule
  split <;> rfl

lemma expandWindow_minSec (s : WidgetState) (now : ℤ) (u : ℚ) :
    (expandWindow s now u).minSec = clamp (s.minSec + 60) 30 (60 * 60) := by
  simp only [expandWindow]
  split
  · rw [scheduleNext_minSec]
  · rfl

lemma expandWindow_maxSec (s : WidgetState) (now : ℤ) (u : ℚ) :
    (expandWindow s now u).maxSec
      = clamp (s.maxSec + 60) (clamp (s.minSec + 60) 30 (60 * 60) + 30) (60 * 60 * 2) := by
  simp only [expandWindow]
  split
  · rw [scheduleNext_maxSec]
  · rfl

lemma shrinkWindow_minSec (s : WidgetState) (now : ℤ) (u : ℚ) :
    (shrinkWindow s now u).minSec = clamp (s.minSec - 60) 30 (60 * 60) := by
  simp only [shrinkWindow]
  split
  · rw [scheduleNext_minSec]
  · rfl

lemma shrinkWindow_maxSec (s : WidgetState) (now : ℤ) (u : ℚ) :
    (shrinkWindow s now u).maxSec
      = clamp (s.maxSec - 60) (clamp (s.minSec - 60) 30 (60 * 60) + 30) (60 * 60 * 2) := by
  simp only [shrinkWindow]
  split
  · rw [scheduleNext_maxSec]
  · rfl

lemma windowInv_expandWindow (s : WidgetState) (now : ℤ) (u : ℚ) :
    windowInv (expandWindow s now u) := by
  unfold windowInv
  rw [expandWindow_minSec, expandWindow_maxSec]
  unfold clamp
  omega

lemma windowInv_shrinkWindow (s : WidgetState) (now : ℤ) (u : ℚ) :
    windowInv (shrinkWindow s now u) := by
  unfold windowInv
  rw [shrinkWindow_minSec, shrinkWindow_maxSec]
  unfold clamp
  omega

lemma windowInv_applyWinOp (s : WidgetState) (op : WinOp × ℤ × ℚ) :
    windowInv (applyWinOp s op) := by
  obtain ⟨o, now, u⟩ := op
  cases o
  · exact windowInv_expandWindow s now u
  · exact windowInv_shrinkWindow s now u

/-! ### C2 -/

/-- C2: starting from the initial window [60, 300], every sequence of
expandWindow and shrinkWindow calls leaves the window satisfying
minSec >= 30, maxSec >= minSec + 30 and maxSec <= 7200; since every
sequence is covered, the invariant holds after each individual call. -/
theorem window_invariant_all_sequences (ops : List (WinOp × ℤ × ℚ)) :
    windowInv (runWinOps initState ops) := by
  have key : ∀ (l : List (WinOp × ℤ × ℚ)) (s : WidgetState),
      windowInv s → windowInv (runWinOps s l) := by
    intro l
    induction l with
    | nil => intro s h; exact h
    | cons op rest ih =>
      intro s _
      exact ih (applyWinOp s op) (windowInv_applyWinOp s op)
  exact key ops initState (by unfold windowInv initState; norm_num)

/-! ### C5 -/

/-- C5 counterexample: from the initial window [60, 300], expandWindow
yields maxSec = 360, not 420 as the claim states (the code adds 60 to
maxSec, it does not add 120). -/
theorem expand_from_default_counterexample :
    ¬ ((expandWindow initState 0 0).minSec = 120 ∧ (expandWindow initState 0 0).maxSec = 420) := by
  intro h
  have h2 := h.2
  rw [expandWindow_maxSec] at h2
  simp [initState, clamp] at h2

/-- C5 amended: expandWindow applied to [60, 300] yields [120, 360], and
expandWindow applied to [3600, 7200] leaves minSec = 3600 and
maxSec = 7200, both clamped. -/
theorem expand_values_amended (now : ℤ) (u : ℚ) :
    (expandWindow initState now u).minSec = 120 ∧
    (expandWindow initState now u).maxSec = 360 ∧
    (expandWindow maxedWindowState now u).minSec = 3600 ∧
    (expandWindow maxedWindowState now u).maxSec = 7200 := by
  refine ⟨?_, ?_, ?_, ?_⟩
  · rw [expandWindow_minSec]; rfl
  · rw [expandWindow_maxSec]; rfl
  · rw [expandWindow_minSec]; rfl
  · rw [expandWindow_maxSec]; rfl

/-! ### C8 -/

/-- C8: playNow leaves the schedule (scheduledAt, fireAt, pending timeout,
generation), the window, the running flag and lastRandomAt unchanged,
whether the play attempt succeeds or fails; only the audio element is
touched. -/
theorem playNow_frame (s : WidgetState) (ok : Bool) :
    (playNowOnly s ok).scheduledAt = s.scheduledAt ∧
    (playNowOnly s ok).fireAt = s.fireAt ∧
    (playNowOnly s ok).gen = s.gen ∧
    (playNowOnly s ok).minSec = s.minSec ∧
    (playNowOnly s ok).maxSec = s.maxSec ∧
    (playNowOnly s ok).running = s.running ∧
    (playNowOnly s ok).lastRandomAt = s.lastRandomAt ∧
    (playNowOnly s ok).pending = s.pending := by
  unfold playNowOnly
  cases ok <;> simp

/-! ### C10 -/

/-- C10: while stopped, expandWindow and shrinkWindow mutate only minSec
and maxSec (the whole result is the input state with just those two fields
replaced), and scheduleNext is a no-op when not running. -/
theorem window_ops_frame_when_stopped (s : WidgetState) (now : ℤ) (u : ℚ)
    (h : s.running = false) :
    expandWindow s now u
      = { s with minSec := clamp (s.minSec + 60) 30 (60 * 60),
                 maxSec := clamp (s.maxSec + 60)
                             (clamp (s.minSec + 60) 30 (60 * 60) + 30) (60 * 60 * 2) } ∧
    shrinkWindow s now u
      = { s with minSec := clamp (s.minSec - 60) 30 (60 * 60),
                 maxSec := clamp (s.maxSec - 60)
                             (clamp (s.minSec - 60) 30 (60 * 60) + 30) (60 * 60 * 2) } ∧
    scheduleNext true s now u = s ∧
    scheduleNext false s now u = s := by
  refine ⟨?_, ?_, ?_, ?_⟩
  · unfold expandWindow
    simp [h]
  · unfold shrinkWindow
    simp [h]
  · unfold scheduleNext
    simp [h]
  · unfold scheduleNext
    simp [h]

/-! ### Scheduling helper lemmas -/

lemma scheduleNext_running_eq (b : Bool) (s : WidgetState) (now : ℤ) (u : ℚ)
    (h : s.running = true) :
    scheduleNext b s now u
      = { s with gen := s.gen + 1, scheduledAt := now,
                 fireAt := now + randInt s.minSec s.maxSec u * 1000,
                 pending := some { myGen := s.gen + 1,
                                   delayMs := randInt s.minSec s.maxSec u * 1000 } } := by
  unfold scheduleNext clearSchedule
  rw [if_neg (by simp [h])]

lemma start_eq (s : WidgetState) (now : ℤ) (u : ℚ) :
    start s now u
      = { s with running := true, uiLoop := true, gen := s.gen + 1, scheduledAt := now,
                 fireAt := now + randInt s.minSec s.maxSec u * 1000,
                 pending := some { myGen := s.gen + 1,
                                   delayMs := randInt s.minSec s.maxSec u * 1000 } } := by
  unfold start
  rw [scheduleNext_running_eq _ _ _ _ rfl]

lemma start_gen (s : WidgetState) (now : ℤ) (u : ℚ) : (start s now u).gen = s.gen + 1 := by
  rw [start_eq]

lemma start_pendingGen (s : WidgetState) (now : ℤ) (u : ℚ) :
    pendingGen (start s now u) = some (s.gen + 1) := by
  rw [start_eq]; rfl

lemma timeoutFire_current (s : WidgetState) (now now2 : ℤ) (playOk : Bool) (u : ℚ)
    (h : s.running = true) :
    timeoutFire s s.gen now now2 playOk u
      = (scheduleNext false (playScheduledOnce s now playOk) now2 u, true) := by
  have h1 : (playScheduledOnce s now playOk).running = s.running := by
    unfold playScheduledOnce
    split <;> rfl
  have h2 : (playScheduledOnce s now playOk).gen = s.gen := by
    unfold playScheduledOnce
    split <;> rfl
  simp only [timeoutFire]
  rw [if_neg (by simp [h]), if_pos ⟨by rw [h1, h], h2.symm⟩]

/-! ### C1 -/

/-- C1: after stop, the previously armed timeout callback is a no-op for
every captured generation (running is false, so the callback returns
immediately and no play attempt is made); moreover any generation captured
before the stop differs from the current one, and the native timeout has
been cancelled. -/
theorem stop_makes_fire_noop (s : WidgetState) (myGen : ℕ) (now now2 : ℤ)
    (playOk : Bool) (u : ℚ) (h : myGen ≤ s.gen) :
    timeoutFire (stop s) myGen now now2 playOk u = (stop s, false) ∧
    myGen ≠ (stop s).gen ∧
    (stop s).pending = none := by
  have hrun : (stop s).running = false := rfl
  have hgen : (stop s).gen = s.gen + 1 := rfl
  refine ⟨?_, by omega, rfl⟩
  unfold timeoutFire
  rw [if_pos (Or.inl hrun)]

/-- C1 witness: stopping the initial state, a ghost callback with captured
generation 0 fired far in the future does nothing. -/
theorem stop_makes_fire_noop_witness :
    timeoutFire (stop initState) 0 999999 999999 true 0 = (stop initState, false) ∧
    0 ≠ (stop initState).gen ∧
    (stop initState).pending = none :=
  stop_makes_fire_noop initState 0 999999 999999 true 0 (by decide)

/-! ### C3 -/

/-- C3: arming twice in rapid succession (start; start) leaves exactly the
second schedule effective: each start arms a timeout capturing the then
current generation, the two generations differ, and firing the first
callback against the state produced by the second start is a no-op. -/
theorem double_start_single_schedule (s : WidgetState) (now1 now2 now3 now4 : ℤ)
    (u1 u2 u3 : ℚ) (playOk : Bool) :
    pendingGen (start s now1 u1) = some (start s now1 u1).gen ∧
    pendingGen (start (start s now1 u1) now2 u2) = some (start (start s now1 u1) now2 u2).gen ∧
    (start s now1 u1).gen ≠ (start (start s now1 u1) now2 u2).gen ∧
    timeoutFire (start (start s now1 u1) now2 u2) (start s now1 u1).gen now3 now4 playOk u3
      = (start (start s now1 u1) now2 u2, false) := by
  have h1 : (start s now1 u1).gen = s.gen + 1 := start_gen s now1 u1
  have h2 : (start (start s now1 u1) now2 u2).gen = s.gen + 2 := by
    rw [start_gen, h1]
  refine ⟨?_, ?_, by omega, ?_⟩
  · rw [start_pendingGen, h1]
  · rw [start_pendingGen, h2, h1]
  · unfold timeoutFire
    rw [if_pos (Or.inr (by omega))]

/-! ### C4 -/

/-- C4 counterexample: start from the initial state with random draw 0
(delay 60 s, so fireAt is 60000 and the armed callback captured generation
1); when that callback fires and the play attempt FAILS, a new schedule is
nevertheless armed immediately — pending becomes generation 2 with a fresh
60 s delay and fireAt moves to 120000 — refuting the claim that a failed
scheduled play leaves the chain un-armed until an external start/reset. -/
theorem failed_play_no_rearm_counterexample :
    (timeoutFire (start initState 0 0) 1 60000 60000 false 0).1.pending
      = some { myGen := 2, delayMs := 60000 } ∧
    (timeoutFire (start initState 0 0) 1 60000 60000 false 0).1.fireAt = 120000 ∧
    (timeoutFire (start initState 0 0) 1 60000 60000 false 0).2 = true := by
  have h60 : randInt 60 300 (0 : ℚ) = 60 := by unfold randInt; norm_num
  have hgen : (start initState 0 0).gen = 1 := by rw [start_gen]; rfl
  have hrun : (start initState 0 0).running = true := by rw [start_eq]
  have hfire := timeoutFire_current (start initState 0 0) 60000 60000 false 0 hrun
  rw [hgen] at hfire
  rw [hfire]
  have hplay : playScheduledOnce (start initState 0 0) 60000 false
      = { start initState 0 0 with
            audio := { paused := true, currentTime := 0, srcIsSet := true, loop := false } } := by
    unfold playScheduledOnce playAudioReset
    rw [start_eq]
    norm_num [initState, initAudio]
  rw [hplay, scheduleNext_running_eq false _ 60000 0 (by rw [start_eq])]
  rw [start_eq]
  norm_num [initState, h60]

/-- C4 amended: a failed scheduled play is caught and swallowed inside
playScheduledOnce, and — because the re-arm sits after the awaited call in
the timeout callback, outside the try/catch — the chain IS re-armed by the
failed cycle exactly as by a successful one (provided the widget is still
running with the same generation); the only difference on failure is that
lastRandomAt is not updated. -/
theorem failed_scheduled_play_rearms (s : WidgetState) (now now2 : ℤ) (u : ℚ)
    (h : s.running = true) :
    (timeoutFire s s.gen now now2 false u).2 = true ∧
    (timeoutFire s s.gen now now2 false u).1.lastRandomAt = s.lastRandomAt ∧
    pendingGen (timeoutFire s s.gen now now2 false u).1
      = some ((timeoutFire s s.gen now now2 false u).1.gen) ∧
    (timeoutFire s s.gen now now2 false u).1.gen = s.gen + 1 := by
  have hrun1 : (playScheduledOnce s now false).running = true := h
  rw [timeoutFire_current s now now2 false u h,
      scheduleNext_running_eq false (playScheduledOnce s now false) now2 u hrun1]
  exact ⟨rfl, rfl, rfl, rfl⟩

/-- C4 witness for the amended claim: the armed example state, callback
fired with a failing play. -/
theorem failed_scheduled_play_rearms_witness :
    (timeoutFire armedState armedState.gen 2500 2500 false 0).2 = true ∧
    (timeoutFire armedState armedState.gen 2500 2500 false 0).1.lastRandomAt
      = armedState.lastRandomAt ∧
    pendingGen (timeoutFire armedState armedState.gen 2500 2500 false 0).1
      = some ((timeoutFire armedState armedState.gen 2500 2500 false 0).1.gen) ∧
    (timeoutFire armedState armedState.gen 2500 2500 false 0).1.gen = armedState.gen + 1 :=
  failed_scheduled_play_rearms armedState 2500 2500 0 rfl

/-! ### C7 -/

lemma randInt_bounds (mn mx : ℤ) (u : ℚ) (h0 : 0 ≤ u) (h1 : u < 1) (hle : mn ≤ mx) :
    mn ≤ randInt mn mx u ∧ randInt mn mx u ≤ mx := by
  unfold randInt
  have hk : (0 : ℚ) < ((mx - mn + 1 : ℤ) : ℚ) := by
    have : (0 : ℤ) < mx - mn + 1 := by omega
    exact_mod_cast this
  constructor
  · have hnn : (0 : ℚ) ≤ u * ((mx - mn + 1 : ℤ) : ℚ) := mul_nonneg h0 hk.le
    have := Int.floor_nonneg.mpr hnn
    omega
  · have hlt : u * ((mx - mn + 1 : ℤ) : ℚ) < ((mx - mn + 1 : ℤ) : ℚ) := by
      calc u * ((mx - mn + 1 : ℤ) : ℚ) < 1 * ((mx - mn + 1 : ℤ) : ℚ) :=
            mul_lt_mul_of_pos_right h1 hk
        _ = ((mx - mn + 1 : ℤ) : ℚ) := one_mul _
    have := Int.floor_lt.mpr hlt
    omega

lemma randInt_attain (mn mx d : ℤ) (h1 : mn ≤ d) (h2 : d ≤ mx) :
    randInt mn mx (((d - mn : ℤ) : ℚ) / ((mx - mn + 1 : ℤ) : ℚ)) = d := by
  unfold randInt
  have hk : ((mx - mn + 1 : ℤ) : ℚ) ≠ 0 := by
    have : (mx - mn + 1 : ℤ) ≠ 0 := by omega
    exact_mod_cast this
  rw [div_mul_cancel₀ _ hk, Int.floor_intCast]
  omega

/-- C7: for every window with minSec <= maxSec and every random draw u in
[0, 1), the drawn delay randInt minSec maxSec u is an integer in
[minSec, maxSec], and every integer in that range is attained by some
draw; arming via start records scheduledAt = now and
fireAt = now + delay * 1000, so for the default window [60 s, 300 s] the
armed schedule satisfies fireAt - scheduledAt in [60000, 300000] ms for
every possible draw. -/
theorem schedule_delay_bounds (mn mx now : ℤ) (u : ℚ) (d : ℤ)
    (h0 : 0 ≤ u) (h1 : u < 1) (hle : mn ≤ mx) :
    (mn ≤ randInt mn mx u ∧ randInt mn mx u ≤ mx) ∧
    (mn ≤ d → d ≤ mx →
      randInt mn mx (((d - mn : ℤ) : ℚ) / ((mx - mn + 1 : ℤ) : ℚ)) = d) ∧
    (start initState now u).scheduledAt = now ∧
    (start initState now u).fireAt - (start initState now u).scheduledAt
      = randInt 60 300 u * 1000 ∧
    60000 ≤ (start initState now u).fireAt - (start initState now u).scheduledAt ∧
    (start initState now u).fireAt - (start initState now u).scheduledAt ≤ 300000 ∧
    (start initState now u).pending.isSome = true := by
  have hb := randInt_bounds 60 300 u h0 h1 (by norm_num)
  have hmm : randInt initState.minSec initState.maxSec u = randInt 60 300 u := rfl
  rw [start_eq]
  refine ⟨randInt_bounds mn mx u h0 h1 hle,
          fun hd1 hd2 => randInt_attain mn mx d hd1 hd2, rfl, ?_, ?_, ?_, rfl⟩
  · simp [hmm]
  · simp only [hmm]
    omega
  · simp only [hmm]
    omega

/-- C7 witness: the default window and the draw u = 1/2 (delay 180 s). -/
theorem schedule_delay_bounds_witness :
    ((60 : ℤ) ≤ randInt 60 300 (1/2) ∧ randInt 60 300 (1/2) ≤ 300) ∧
    ((60 : ℤ) ≤ 100 → (100 : ℤ) ≤ 300 →
      randInt 60 300 (((100 - 60 : ℤ) : ℚ) / ((300 - 60 + 1 : ℤ) : ℚ)) = 100) ∧
    (start initState 0 (1/2)).scheduledAt = 0 ∧
    (start initState 0 (1/2)).fireAt - (start initState 0 (1/2)).scheduledAt
      = randInt 60 300 (1/2) * 1000 ∧
    60000 ≤ (start initState 0 (1/2)).fireAt - (start initState 0 (1/2)).scheduledAt ∧
    (start initState 0 (1/2)).fireAt - (start initState 0 (1/2)).scheduledAt ≤ 300000 ∧
    (start initState 0 (1/2)).pending.isSome = true :=
  schedule_delay_bounds 60 300 0 (1/2) 100 (by norm_num) (by norm_num) (by norm_num)

/-- C10 witness: the frame property evaluated at the initial (stopped)
state. -/
theorem window_ops_frame_when_stopped_witness :
    expandWindow initState 0 0
      = { initState with
            minSec := clamp (initState.minSec + 60) 30 (60 * 60),
            maxSec := clamp (initState.maxSec + 60)
                        (clamp (initState.minSec + 60) 30 (60 * 60) + 30) (60 * 60 * 2) } ∧
    shrinkWindow initState 0 0
      = { initState with
            minSec := clamp (initState.minSec - 60) 30 (60 * 60),
            maxSec := clamp (initState.maxSec - 60)
                        (clamp (initState.minSec - 60) 30 (60 * 60) + 30) (60 * 60 * 2) } ∧
    scheduleNext true initState 0 0 = initState ∧
    scheduleNext false initState 0 0 = initState :=
  window_ops_frame_when_stopped initState 0 0 rfl

/-! ### C6 -/

/-- C6 counterexample: in the armed example state with 1500 ms left, the
widget displays the countdown "2s" (Math.ceil), while the spec text, which
floors the remaining time to whole seconds, would display "1s". -/
theorem countdown_floored_counterexample :
    (updateUI armedState 1000).nextText ≠ specFlooredCountdown (armedState.fireAt - 1000) := by
  have hceil : (⌈((1500 : ℤ) : ℚ) / 1000⌉ : ℤ) = 2 := by
    rw [Int.ceil_eq_iff]
    norm_num
  have hfloor : (⌊((1500 : ℤ) : ℚ) / 1000⌋ : ℤ) = 1 := by
    norm_num
  have h1 : (updateUI armedState 1000).nextText = "2s" := by
    have hnext : (updateUI armedState 1000).nextText = fmtCountdown (some 1500) := by
      simp [updateUI, armedState, initState]
    rw [hnext]
    simp only [fmtCountdown, hceil]
    norm_num
    decide
  have h2 : specFlooredCountdown (armedState.fireAt - 1000) = "1s" := by
    have : armedState.fireAt - 1000 = 1500 := by norm_num [armedState, initState]
    rw [this]
    simp only [specFlooredCountdown, hfloor]
    norm_num
    decide
  rw [h1, h2]
  decide

/-- C6 amended: on every refresh tick while running with an armed schedule,
the displayed countdown is fireAt - now rounded UP to whole seconds (clamped
below at zero), not floored: for a tick at or after fireAt the clamp yields
zero and the text is "0s"; for a positive remainder with k its rounded-up
number of seconds, the text is "Xm Ys" when at least 60 seconds remain so
rounded, and "Ys" otherwise. -/
theorem countdown_rounds_up (s : WidgetState) (now k : ℤ)
    (hr : s.running = true) (hf : s.fireAt ≠ 0) (hs : s.scheduledAt ≠ 0) :
    (s.fireAt ≤ now → (updateUI s now).nextText = "0s") ∧
    (1000 * (k - 1) < s.fireAt - now → s.fireAt - now ≤ 1000 * k → 0 < s.fireAt - now →
      (updateUI s now).nextText
        = (if 60 ≤ k then toString (k / 60) ++ "m " ++ toString (k % 60) ++ "s"
           else toString k ++ "s")) := by
  have hnext : (updateUI s now).nextText = fmtCountdown (some (s.fireAt - now)) := by
    simp [updateUI, hr, hf, hs]
  constructor
  · intro hle
    rw [hnext]
    have hdQ : ((s.fireAt - now : ℤ) : ℚ) ≤ 0 := by
      exact_mod_cast (by omega : (s.fireAt - now : ℤ) ≤ 0)
    have hceil : (⌈((s.fireAt - now : ℤ) : ℚ) / 1000⌉ : ℤ) ≤ 0 := by
      apply Int.ceil_le.mpr
      rw [div_le_iff₀ (by norm_num : (0 : ℚ) < 1000)]
      push_cast
      push_cast at hdQ
      linarith
    simp only [fmtCountdown]
    have hmax : max 0 (⌈((s.fireAt - now : ℤ) : ℚ) / 1000⌉ : ℤ) = 0 := by omega
    rw [hmax]
    norm_num
    decide
  · intro hlo hhi hpos
    have hk1 : 1 ≤ k := by omega
    rw [hnext]
    have hceil : (⌈((s.fireAt - now : ℤ) : ℚ) / 1000⌉ : ℤ) = k := by
      rw [Int.ceil_eq_iff]
      have hloQ : (1000 : ℚ) * ((k : ℚ) - 1) < ((s.fireAt - now : ℤ) : ℚ) := by
        exact_mod_cast hlo
      have hhiQ : ((s.fireAt - now : ℤ) : ℚ) ≤ 1000 * (k : ℚ) := by exact_mod_cast hhi
      constructor
      · rw [lt_div_iff₀ (by norm_num : (0 : ℚ) < 1000)]
        linarith
      · rw [div_le_iff₀ (by norm_num : (0 : ℚ) < 1000)]
        linarith
    simp only [fmtCountdown, hceil]
    have hmax : max 0 k = k := by omega
    rw [hmax]
    by_cases h60 : 60 ≤ k
    · rw [if_pos (by omega : 0 < k / 60), if_pos h60]
    · rw [if_neg (by omega : ¬ 0 < k / 60), if_neg h60]
      have hmod : k % 60 = k := by omega
      rw [hmod]

/-- C6 witness for the amended claim, exercising both branches: at tick
3000 (past fireAt = 2500) the armed example state displays "0s", and at
tick 1000 the 1500 ms left round up to k = 2 seconds and display "2s". -/
theorem countdown_rounds_up_witness :
    (updateUI armedState 3000).nextText = "0s" ∧
    (updateUI armedState 1000).nextText
      = (if 60 ≤ (2 : ℤ) then toString ((2 : ℤ) / 60) ++ "m " ++ toString ((2 : ℤ) % 60) ++ "s"
         else toString (2 : ℤ) ++ "s") :=
  ⟨(countdown_rounds_up armedState 3000 0 rfl (by decide) (by decide)).1 (by decide),
   (countdown_rounds_up armedState 1000 2 rfl (by decide) (by decide)).2 (by decide) (by decide)
     (by decide)⟩

/-! ### C9 -/

lemma clampQ_mono {a b x y : ℚ} (h : x ≤ y) : clampQ x a b ≤ clampQ y a b :=
  max_le_max le_rfl (min_le_min le_rfl h)

lemma progressOf_mono (sa fa : ℤ) {n1 n2 : ℤ} (h : n1 ≤ n2) :
    progressOf sa fa n1 ≤ progressOf sa fa n2 := by
  simp only [progressOf]
  have hT1 : (1 : ℤ) ≤ max 1 (fa - sa) := le_max_left _ _
  have hTQ : (0 : ℚ) < ((max 1 (fa - sa) : ℤ) : ℚ) := by
    exact_mod_cast (by omega : (0 : ℤ) < max 1 (fa - sa))
  have he : clamp (n1 - sa) 0 (max 1 (fa - sa)) ≤ clamp (n2 - sa) 0 (max 1 (fa - sa)) := by
    unfold clamp
    omega
  have heQ : ((clamp (n1 - sa) 0 (max 1 (fa - sa)) : ℤ) : ℚ)
      ≤ ((clamp (n2 - sa) 0 (max 1 (fa - sa)) : ℤ) : ℚ) := by exact_mod_cast he
  gcongr

lemma progressOf_complete (sa fa n : ℤ) (hsf : sa < fa) (hn : fa ≤ n) :
    progressOf sa fa n = 100 := by
  simp only [progressOf]
  have hT : max 1 (fa - sa) = fa - sa := by omega
  rw [hT]
  have he : clamp (n - sa) 0 (fa - sa) = fa - sa := by
    unfold clamp
    omega
  rw [he]
  have hz : ((fa - sa : ℤ) : ℚ) ≠ 0 := by
    exact_mod_cast (by omega : (fa - sa : ℤ) ≠ 0)
  rw [div_self hz]
  norm_num

/-- C9: within one schedule interval (scheduledAt < fireAt, running), the
displayed progress percentage is monotonically non-decreasing in the tick
time and equals 100 for every tick at or after fireAt. -/
theorem progress_monotone_and_complete (s : WidgetState) (now1 now2 : ℤ)
    (hr : s.running = true) (h0 : 0 < s.scheduledAt) (hsf : s.scheduledAt < s.fireAt)
    (h12 : now1 ≤ now2) :
    (updateUI s now1).progressPct ≤ (updateUI s now2).progressPct ∧
    (s.fireAt ≤ now2 → (updateUI s now2).progressPct = 100) := by
  have hf : s.fireAt ≠ 0 := by omega
  have hsnz : s.scheduledAt ≠ 0 := by omega
  have hpp : ∀ n : ℤ, (updateUI s n).progressPct
      = setProgressPct (progressOf s.scheduledAt s.fireAt n) := by
    intro n
    simp [updateUI, hr, hf, hsnz]
  constructor
  · rw [hpp, hpp]
    exact clampQ_mono (progressOf_mono _ _ h12)
  · intro hle
    rw [hpp, progressOf_complete _ _ _ hsf hle]
    unfold setProgressPct clampQ
    norm_num

/-- C9 witness: in the second armed example state, the progress at tick
1200 is at most the progress at tick 2500, and the latter tick is past
fireAt so the progress there is 100. -/
theorem progress_monotone_and_complete_witness :
    (updateUI armedState2 1200).progressPct ≤ (updateUI armedState2 2500).progressPct ∧
    (armedState2.fireAt ≤ 2500 → (updateUI armedState2 2500).progressPct = 100) :=
  progress_monotone_and_complete armedState2 1200 2500 rfl (by decide) (by decide) (by decide)

end App
